import Mathlib

/-!
Verification development for the declarative menu engine of the Oracle
Telegram bot (`internal/bot/menu_types.go`, `internal/bot/menu_builder.go`,
the navigation stack, and `internal/i18n/i18n.go`).

The Go code is shallowly embedded: pure functions become Lean functions, the
per-user navigation map becomes explicit state passing, Go map assignment
becomes functional update, and the fallible admin lookup becomes an
`Except`-valued parameter.  Rendering (`Build`) is modelled as the keyboard it
produces: a list of rows of rendered buttons.
-/

namespace Oracle

/-- `MenuType` (menu_types.go): a string identifier naming one menu screen. -/
abbrev MenuType := String

def MenuMain : MenuType := "main"

def MenuTasks : MenuType := "tasks"

def MenuProfile : MenuType := "profile"

def MenuStats : MenuType := "stats"

def MenuMore : MenuType := "more"

def MenuAdmin : MenuType := "admin"

def MenuNearTasks : MenuType := "near_tasks"

/-- `MenuButton` (menu_types.go).  Field defaults model Go zero values, so
sparse Go struct literals translate verbatim.  `requiresRole` stores the
optional role-check predicate `func(*Bot, int64) bool`, with the bot receiver
already closed over, as in the single source instance `(*Bot).IsAdminCheck`. -/
structure MenuButton where
  textKey : String
  handler : String := ""
  emoji : String := ""
  subMenu : MenuType := ""
  requiresAuth : Bool := false
  requiresRole : Option (Int → Bool) := none
  inlineData : String := ""

/-- `MenuDefinition` (menu_types.go): one complete menu screen. -/
structure MenuDefinition where
  type : MenuType
  titleKey : String := ""
  buttons : List MenuButton
  layout : List Int
  hasBack : Bool

/-- The registry's backing map `map[MenuType]*MenuDefinition`; a missing key
reads as `none`, exactly as a Go map read of an absent key yields `nil`. -/
def MenuRegistry : Type := MenuType → Option MenuDefinition

/-- The freshly made empty map inside `NewMenuRegistry`. -/
def emptyRegistry : MenuRegistry := fun _ => none

/-- Go map assignment `r.menus[k] = v`: inserts, silently overwriting any
existing binding for `k`. -/
def registryInsert (r : MenuRegistry) (k : MenuType) (v : MenuDefinition) :
    MenuRegistry :=
  fun k' => if k' = k then some v else r k'

/-- `MenuRegistry.Get` (menu_types.go): plain map lookup. -/
def registryGet (r : MenuRegistry) (menuType : MenuType) :
    Option MenuDefinition :=
  r menuType

/-- `(*Bot).IsAdminCheck` (menu_types.go): asks the user repository whether
`userID` is an admin; any lookup error is logged and treated as `false`. -/
def IsAdminCheck (isAdminRepo : Int → Except String Bool) (userID : Int) :
    Bool :=
  match isAdminRepo userID with
  | .ok isAdmin => isAdmin
  | .error _ => false

/-- `registerMainMenu` (menu_types.go). -/
def registerMainMenu (r : MenuRegistry) : MenuRegistry :=
  registryInsert r MenuMain
    { type := MenuMain
      layout := [1, 1]
      hasBack := false
      buttons :=
        [ { textKey := "menu.tasks", subMenu := MenuTasks, requiresAuth := true }
        , { textKey := "menu.profile", subMenu := MenuProfile, requiresAuth := true }
        , { textKey := "menu.more", subMenu := MenuMore, requiresAuth := true }
        , { textKey := "menu.logout", handler := "logout", requiresAuth := true } ] }

/-- `registerTasksMenu` (menu_types.go). -/
def registerTasksMenu (r : MenuRegistry) : MenuRegistry :=
  registryInsert r MenuTasks
    { type := MenuTasks
      titleKey := "tasks.title"
      layout := [1, 1]
      hasBack := true
      buttons :=
        [ { textKey := "menu.active_tasks", handler := "active_tasks" }
        , { textKey := "menu.tasks_near", handler := "near_tasks" } ] }

/-- `registerProfileMenu` (menu_types.go). -/
def registerProfileMenu (r : MenuRegistry) : MenuRegistry :=
  registryInsert r MenuProfile
    { type := MenuProfile
      titleKey := "profile.title"
      layout := [1, 1, 1]
      hasBack := true
      buttons :=
        [ { textKey := "menu.about_me", handler := "info" }
        , { textKey := "menu.my_statistic", subMenu := MenuStats }
        , { textKey := "menu.create_report", handler := "report" } ] }

/-- `registerStatsMenu` (menu_types.go). -/
def registerStatsMenu (r : MenuRegistry) : MenuRegistry :=
  registryInsert r MenuStats
    { type := MenuStats
      titleKey := "statistic.title"
      layout := [1, 1, 1]
      hasBack := true
      buttons :=
        [ { textKey := "menu.today", handler := "statistic_today" }
        , { textKey := "menu.this_month", handler := "statistic_month" }
        , { textKey := "menu.this_year", handler := "statistic_year" } ] }

/-- `registerMoreMenu` (menu_types.go); the admin-panel button stores the
bot-bound role check `(*Bot).IsAdminCheck`, here the parameter `isAdminCheck`. -/
def registerMoreMenu (isAdminCheck : Int → Bool) (r : MenuRegistry) :
    MenuRegistry :=
  registryInsert r MenuMore
    { type := MenuMore
      titleKey := "more.title"
      layout := [1, 1, 1]
      hasBack := true
      buttons :=
        [ { textKey := "menu.language", handler := "language" }
        , { textKey := "menu.report_issue", handler := "report_issue" }
        , { textKey := "menu.admin_panel", subMenu := MenuAdmin,
            requiresRole := some isAdminCheck } ] }

/-- `registerAdminMenu` (menu_types.go). -/
def registerAdminMenu (r : MenuRegistry) : MenuRegistry :=
  registryInsert r MenuAdmin
    { type := MenuAdmin
      titleKey := "admin.panel.title"
      layout := [1, 1, 1]
      hasBack := true
      buttons :=
        [ { textKey := "menu.broadcast", handler := "broadcast_initiate" }
        , { textKey := "menu.geocoding_issues", handler := "geocoding_issues" }
        , { textKey := "menu.geocoding_reset", handler := "geocoding_reset" } ] }

/-- `registerNearTasksMenu` (menu_types.go). -/
def registerNearTasksMenu (r : MenuRegistry) : MenuRegistry :=
  registryInsert r MenuNearTasks
    { type := MenuNearTasks
      layout := [1]
      hasBack := true
      buttons :=
        [ { textKey := "menu.send_location", handler := "near_tasks_location" } ] }

/-- `NewMenuRegistry` (menu_types.go): the one startup batch of registration
calls, executed in source order on the empty map. -/
def NewMenuRegistry (isAdminCheck : Int → Bool) : MenuRegistry :=
  registerNearTasksMenu
    (registerAdminMenu
      (registerMoreMenu isAdminCheck
        (registerStatsMenu
          (registerProfileMenu
            (registerTasksMenu
              (registerMainMenu emptyRegistry))))))

/-- The screen identifiers registered by `NewMenuRegistry`, in call order. -/
def newMenuRegistryKeys : List MenuType :=
  [MenuMain, MenuTasks, MenuProfile, MenuStats, MenuMore, MenuAdmin,
   MenuNearTasks]

/-! ## Localization (`internal/i18n/i18n.go`)

The two embedded JSON tables (`locales/en.json`, `locales/uk.json`) are data
files not present in the sources, so the translation tables are a parameter
`T : String → String → Option String` (language, key ↦ entry); `Localizer.Get`
itself is code and is embedded below. -/

/-- `Localizer.Get` (i18n.go): look the key up in `lang`'s table, fall back to
the `"en"` table when `lang ≠ "en"`, and finally to the key itself. -/
def localizerGet (T : String → String → Option String) (lang key : String) :
    String :=
  match T lang key with
  | some translation => translation
  | none =>
    if lang ≠ "en" then
      match T "en" key with
      | some translation => translation
      | none => key
    else key

/-! ## Menu builder (`internal/bot/menu_builder.go`)

`mb.bot.t(ctx, tCtx, key)` resolves the user's language once and then reads
the localizer; a render models it as a function `tr : String → String`
(key ↦ display text), instantiated with `localizerGet T lang` where needed. -/

/-- One rendered keyboard element: `menu.Text` or `menu.Location` of telebot,
identified by its label and whether it is a location-request button. -/
structure RenderedButton where
  text : String
  isLocation : Bool
deriving DecidableEq, Repr

/-- A keyboard: the ordered rows handed to `menu.Reply`. -/
abbrev Keyboard := List (List RenderedButton)

/-- `buildButtonText` (menu_builder.go): localize `TextKey`; when an emoji is
declared, return `fmt.Sprintf("%s %s", btn.Emoji, text)`. -/
def buildButtonText (tr : String → String) (btn : MenuButton) : String :=
  let text := tr btn.textKey
  if btn.emoji ≠ "" then btn.emoji ++ " " ++ text else text

/-- Whether one button survives the permission filter: no `RequiresRole`
predicate, or the predicate holds for the user. -/
def buttonVisible (btn : MenuButton) (userID : Int) : Bool :=
  match btn.requiresRole with
  | none => true
  | some check => check userID

/-- `filterVisibleButtons` (menu_builder.go): keep, in order, the buttons the
user may see (the loop `continue`s past a failing role check). -/
def filterVisibleButtons (buttons : List MenuButton) (userID : Int) :
    List MenuButton :=
  buttons.filter (fun btn => buttonVisible btn userID)

/-- Rendering of one button inside a layout row: the special
`"menu.send_location"` key becomes `menu.Location`, all others `menu.Text`. -/
def renderRowButton (tr : String → String) (btn : MenuButton) :
    RenderedButton :=
  { text := buildButtonText tr btn
    isLocation := btn.textKey = "menu.send_location" }

/-- `buildRows` (menu_builder.go): consume `layout` row sizes while buttons
remain (empty rows are not appended), then place every remaining button on a
row of its own as a plain text button. -/
def buildRows (tr : String → String) (buttons : List MenuButton)
    (layout : List Int) : Keyboard :=
  match layout with
  | [] =>
    buttons.map (fun btn => [{ text := buildButtonText tr btn, isLocation := false }])
  | rowSize :: restLayout =>
    if buttons.isEmpty then []
    else
      let row := (buttons.take rowSize.toNat).map (renderRowButton tr)
      let rest := buildRows tr (buttons.drop rowSize.toNat) restLayout
      if row.isEmpty then rest else row :: rest

/-- The synthesized back element: `menu.Text(t("menu.back"))`. -/
def backButton (tr : String → String) : RenderedButton :=
  { text := tr "menu.back", isLocation := false }

/-- `buildFallbackMenu` (menu_builder.go): a single row holding only the back
element. -/
def buildFallbackMenu (tr : String → String) : Keyboard :=
  [[backButton tr]]

/-- `Build` (menu_builder.go): look the screen up (falling back when absent),
filter by permission, lay the rows out, and append the back row if declared. -/
def Build (reg : MenuRegistry) (tr : String → String) (userID : Int)
    (menuType : MenuType) : Keyboard :=
  match registryGet reg menuType with
  | none => buildFallbackMenu tr
  | some menuDef =>
    let visibleButtons := filterVisibleButtons menuDef.buttons userID
    let rows := buildRows tr visibleButtons menuDef.layout
    if menuDef.hasBack then rows ++ [[backButton tr]] else rows

/-! ## Navigation stack (the `NavigationStack` source file) -/

/-- The `stacks map[int64][]MenuType` field; an absent key reads as the empty
history, as a Go map read of an absent key yields a `nil` slice. -/
def NavStacks : Type := Int → List MenuType

/-- `NewNavigationStack`: the empty map. -/
def NewNavigationStack : NavStacks := fun _ => []

/-- `NavigationStack.Push`: append to the user's history (created on first
use). -/
def Push (s : NavStacks) (userID : Int) (menu : MenuType) : NavStacks :=
  fun u => if u = userID then s userID ++ [menu] else s u

/-- `NavigationStack.Pop`: remove and return the last entry; an empty or
absent history returns `MenuMain` and leaves the map untouched. -/
def Pop (s : NavStacks) (userID : Int) : MenuType × NavStacks :=
  match (s userID).getLast? with
  | none => (MenuMain, s)
  | some last =>
    (last, fun u => if u = userID then (s userID).dropLast else s u)

/-- `NavigationStack.Current`: the last entry without removal, `MenuMain` when
empty or absent. -/
def Current (s : NavStacks) (userID : Int) : MenuType :=
  match (s userID).getLast? with
  | none => MenuMain
  | some last => last

/-- `NavigationStack.Reset`: drop the user's history. -/
def Reset (s : NavStacks) (userID : Int) : NavStacks :=
  fun u => if u = userID then [] else s u

/-- `NavigationStack.Depth`: length of the user's history. -/
def Depth (s : NavStacks) (userID : Int) : Nat :=
  (s userID).length

/-! ## ShowMenu / NavigateBack (menu_builder.go)

The Go methods render, conditionally push, and send.  The embedding returns
what is sent (keyboard and message) together with the navigation state after
the call. -/

/-- Result of a send: the keyboard and message handed to `tCtx.Send`, plus the
navigation stacks after the operation. -/
structure SendResult where
  keyboard : Keyboard
  message : String
  stacksAfter : NavStacks

/-- `ShowMenu` (menu_builder.go): build the keyboard, push the screen when
`trackNavigation` is set, and pick the accompanying message (explicit key,
else the screen's title key, else the generic welcome-back key). -/
def ShowMenu (reg : MenuRegistry) (tr : String → String) (s : NavStacks)
    (menuType : MenuType) (userID : Int) (messageKey : String)
    (trackNavigation : Bool) : SendResult :=
  let menu := Build reg tr userID menuType
  let s' := if trackNavigation then Push s userID menuType else s
  let message :=
    if messageKey ≠ "" then tr messageKey
    else
      match registryGet reg menuType with
      | some menuDef =>
        if menuDef.titleKey ≠ "" then tr menuDef.titleKey
        else tr "general.welcome_back"
      | none => tr "general.welcome_back"
  { keyboard := menu, message := message, stacksAfter := s' }

/-- `NavigateBack` (menu_builder.go): pop the current screen, read the one now
on top (defaulting to `MenuMain`), and show it without tracking. -/
def NavigateBack (reg : MenuRegistry) (tr : String → String) (s : NavStacks)
    (userID : Int) : SendResult :=
  let s₁ := (Pop s userID).2
  let prevMenu := Current s₁ userID
  let prevMenu := if prevMenu = "" then MenuMain else prevMenu
  ShowMenu reg tr s₁ prevMenu userID "" false

/-! ## Button text resolver (menu_builder.go) -/

/-- The candidate languages tried by `ResolveHandlerFromButtonText`: the
user's language then `"en"`, or `["en", "uk"]` when the user's language is
already `"en"`. -/
def candidateLanguages (lang : String) : List String :=
  if lang ≠ "en" then [lang, "en"] else ["en", "uk"]

/-- The hardcoded list of menus the resolver searches. -/
def searchMenus : List MenuType :=
  [MenuMain, MenuTasks, MenuProfile, MenuStats, MenuMore, MenuAdmin]

/-- `strings.HasPrefix(s, pre)` of Go: `pre` begins `s`.  On valid UTF-8 the
byte-level test coincides with this character-level one. -/
def strStartsWith (s pre : String) : Bool :=
  List.isPrefixOf pre.data s.data

/-- The label the resolver expects for a button in one language: the i18n
text, with the emoji prefixed only when declared and not already present
(`strings.HasPrefix`). -/
def expectedButtonText (T : String → String → Option String) (checkLang : String)
    (btn : MenuButton) : String :=
  let t := localizerGet T checkLang btn.textKey
  if btn.emoji ≠ "" ∧ ¬ strStartsWith t btn.emoji then btn.emoji ++ " " ++ t else t

/-- The inner button loop of `ResolveHandlerFromButtonText`: first button, in
declaration order, whose expected label in some candidate language equals the
received text. -/
def resolveInButtons (T : String → String → Option String)
    (langs : List String) (buttonText : String) :
    List MenuButton → Option (String × MenuType)
  | [] => none
  | btn :: rest =>
    match langs.find? (fun l => expectedButtonText T l btn = buttonText) with
    | some _ => some (btn.handler, btn.subMenu)
    | none => resolveInButtons T langs buttonText rest

/-- The outer menu loop of `ResolveHandlerFromButtonText`: screens absent from
the registry are skipped (`continue`). -/
def resolveInMenus (reg : MenuRegistry) (T : String → String → Option String)
    (langs : List String) (buttonText : String) :
    List MenuType → Option (String × MenuType)
  | [] => none
  | menuType :: rest =>
    match registryGet reg menuType with
    | none => resolveInMenus reg T langs buttonText rest
    | some menuDef =>
      match resolveInButtons T langs buttonText menuDef.buttons with
      | some r => some r
      | none => resolveInMenus reg T langs buttonText rest

/-- `ResolveHandlerFromButtonText` (menu_builder.go): search the hardcoded
menu list for a button whose expected label matches; `("", "")` signals "no
match — treat as free-form input".  `lang` is the user's resolved language. -/
def ResolveHandlerFromButtonText (reg : MenuRegistry)
    (T : String → String → Option String) (lang : String)
    (buttonText : String) : String × MenuType :=
  match resolveInMenus reg T (candidateLanguages lang) buttonText searchMenus with
  | some r => r
  | none => ("", "")

/-- The declared buttons of a screen, `[]` when the screen is unregistered. -/
def menuButtons (reg : MenuRegistry) (menuType : MenuType) : List MenuButton :=
  match registryGet reg menuType with
  | none => []
  | some menuDef => menuDef.buttons

/-- Number of (possibly overlapping) occurrences of `pat` in `s`, used to
state that a rendered label contains an icon glyph exactly once. -/
def countOcc (pat s : List Char) : Nat :=
  ((List.range (s.length + 1)).filter
    (fun i => List.isPrefixOf pat (s.drop i))).length

/-- A sequence of `Push` calls for one user, one per list element. -/
def pushSeq (s : NavStacks) (userID : Int) : List MenuType → NavStacks
  | [] => s
  | m :: rest => pushSeq (Push s userID m) userID rest

/-- `n` consecutive `Pop` calls for one user (return values discarded). -/
def popSeq (s : NavStacks) (userID : Int) : Nat → NavStacks
  | 0 => s
  | n + 1 => popSeq (Pop s userID).2 userID n

/-- Total number of button slots the layout covers (Go `int` row sizes;
non-positive sizes cover no slot). -/
def sumLayout (layout : List Int) : Nat :=
  (layout.map Int.toNat).sum

/-- Forget the `RequiresAuth` flag of a button, keeping every other field. -/
def stripAuth (btn : MenuButton) : MenuButton :=
  { btn with requiresAuth := false }

/-- A translation table whose localized label already embeds the icon glyph
declared on the button, as the resolver's comment says i18n texts do. -/
def iconTable : String → String → Option String :=
  fun lang key =>
    if lang = "en" && key = "menu.tasks" then some "* Tasks" else none

/-- A concrete fallible admin lookup used to instantiate theorems: user 2's
lookup fails, user 1 is an admin, everyone else is not. -/
def adminRepo : Int → Except String Bool :=
  fun uid => if uid = 2 then .error "db unavailable" else .ok (uid == 1)

/-! ## Helper lemmas -/

theorem pushSeq_apply (u : Int) (ms : List MenuType) :
    ∀ s : NavStacks, pushSeq s u ms u = s u ++ ms := by
  induction ms with
  | nil => intro s; simp [pushSeq]
  | cons m rest ih =>
    intro s
    rw [pushSeq, ih]
    simp [Push]

theorem popSeq_apply (u : Int) :
    ∀ (n : Nat) (s : NavStacks), (s u).length = n → popSeq s u n u = [] := by
  intro n
  induction n with
  | zero =>
    intro s h
    simpa [popSeq] using List.length_eq_zero.mp h
  | succ n ih =>
    intro s h
    rw [popSeq]
    apply ih
    have hne : s u ≠ [] := by
      intro hh
      rw [hh] at h
      simp at h
    obtain ⟨x, hx⟩ : ∃ x, (s u).getLast? = some x := by
      cases hgl : (s u).getLast? with
      | none => exact absurd (by simpa using hgl) hne
      | some x => exact ⟨x, rfl⟩
    simp only [Pop, hx, if_pos rfl]
    simp [List.length_dropLast, h]

theorem registryGet_notin_keys (isAdm : Int → Bool) (m : MenuType)
    (h : m ∉ newMenuRegistryKeys) :
    registryGet (NewMenuRegistry isAdm) m = none := by
  simp only [newMenuRegistryKeys, List.mem_cons, List.not_mem_nil, or_false,
    not_or] at h
  obtain ⟨h1, h2, h3, h4, h5, h6, h7⟩ := h
  simp [registryGet, NewMenuRegistry, registerMainMenu, registerTasksMenu,
    registerProfileMenu, registerStatsMenu, registerMoreMenu,
    registerAdminMenu, registerNearTasksMenu, registryInsert, emptyRegistry,
    h1, h2, h3, h4, h5, h6, h7]

theorem flatten_map_singleton {α β : Type} (g : α → β) :
    ∀ l : List α, (l.map (fun a => [g a])).flatten = l.map g := by
  intro l
  induction l with
  | nil => simp
  | cons a as ih => simp [ih]

theorem buildRows_nil (tr : String → String) :
    ∀ layout : List Int, buildRows tr [] layout = [] := by
  intro layout
  cases layout <;> simp [buildRows]

theorem buildRows_zero_row (tr : String → String) (r : Int) (hr : r.toNat = 0)
    (restLayout : List Int) :
    ∀ btns : List MenuButton,
      buildRows tr btns (r :: restLayout) = buildRows tr btns restLayout := by
  intro btns
  cases btns with
  | nil => simp [buildRows, buildRows_nil]
  | cons b bs => simp [buildRows, hr]

theorem buildRows_pos_row (tr : String → String) (r : Int) (t : Nat)
    (hr : r.toNat = t + 1) (restLayout : List Int) (b : MenuButton)
    (bs : List MenuButton) :
    buildRows tr (b :: bs) (r :: restLayout) =
      ((b :: bs).take r.toNat).map (renderRowButton tr) ::
        buildRows tr ((b :: bs).drop r.toNat) restLayout := by
  simp [buildRows, hr]

theorem buildRows_flatten_text (tr : String → String) :
    ∀ (layout : List Int) (btns : List MenuButton),
      (buildRows tr btns layout).flatten.map RenderedButton.text =
        btns.map (buildButtonText tr) := by
  intro layout
  induction layout with
  | nil =>
    intro btns
    rw [buildRows, flatten_map_singleton]
    simp [List.map_map, Function.comp]
  | cons r rest ih =>
    intro btns
    cases btns with
    | nil => simp [buildRows_nil]
    | cons b bs =>
      cases ht : r.toNat with
      | zero => rw [buildRows_zero_row tr r ht rest, ih]
      | succ t =>
        rw [buildRows_pos_row tr r t ht rest b bs]
        simp only [List.flatten_cons, List.map_append, ih, List.map_map]
        have hrt : ∀ l : List MenuButton,
            l.map (RenderedButton.text ∘ renderRowButton tr) =
              l.map (buildButtonText tr) := by
          intro l
          exact List.map_congr_left (fun a _ => rfl)
        rw [hrt, ← List.map_append, List.take_append_drop]

theorem buildRows_overflow_split (tr : String → String) :
    ∀ (layout : List Int) (btns : List MenuButton),
      buildRows tr btns layout =
        buildRows tr (btns.take (sumLayout layout)) layout ++
          (btns.drop (sumLayout layout)).map
            (fun btn => [{ text := buildButtonText tr btn, isLocation := false }]) := by
  intro layout
  induction layout with
  | nil =>
    intro btns
    simp [buildRows, sumLayout]
  | cons r rest ih =>
    intro btns
    have hsum : sumLayout (r :: rest) = r.toNat + sumLayout rest := by
      simp [sumLayout]
    cases btns with
    | nil => simp [buildRows_nil]
    | cons b bs =>
      cases ht : r.toNat with
      | zero =>
        rw [buildRows_zero_row tr r ht rest, ih (b :: bs),
          buildRows_zero_row tr r ht rest, hsum, ht]
        simp
      | succ t =>
        rw [buildRows_pos_row tr r t ht rest b bs, ih ((b :: bs).drop r.toNat),
          hsum]
        have htake : ((b :: bs).take (r.toNat + sumLayout rest)).take r.toNat =
            (b :: bs).take r.toNat := by
          rw [List.take_take, Nat.min_eq_left (Nat.le_add_right _ _)]
        have hdrop : ((b :: bs).take (r.toNat + sumLayout rest)).drop r.toNat =
            ((b :: bs).drop r.toNat).take (sumLayout rest) := by
          rw [List.drop_take, Nat.add_sub_cancel_left]
        have hdrop2 : (b :: bs).drop (r.toNat + sumLayout rest) =
            ((b :: bs).drop r.toNat).drop (sumLayout rest) := by
          rw [List.drop_drop, Nat.add_comm]
        rw [hdrop2]
        have hne : ((b :: bs).take (r.toNat + sumLayout rest)) =
            b :: bs.take (t + sumLayout rest) := by
          rw [ht]
          simp [Nat.succ_add, List.take_succ_cons]
        rw [hne, buildRows_pos_row tr r t ht rest b (bs.take (t + sumLayout rest)),
          ← hne, htake, hdrop]
        simp

theorem buildButtonText_stripAuth (tr : String → String) (btn : MenuButton) :
    buildButtonText tr (stripAuth btn) = buildButtonText tr btn := rfl

theorem renderRowButton_stripAuth (tr : String → String) (btn : MenuButton) :
    renderRowButton tr (stripAuth btn) = renderRowButton tr btn := rfl

theorem filterVisible_map_stripAuth (u : Int) :
    ∀ l : List MenuButton,
      filterVisibleButtons (l.map stripAuth) u =
        (filterVisibleButtons l u).map stripAuth := by
  intro l
  induction l with
  | nil => rfl
  | cons b bs ih =>
    have hv : buttonVisible (stripAuth b) u = buttonVisible b u := rfl
    simp only [List.map_cons, filterVisibleButtons, List.filter_cons, hv] at *
    cases hb : buttonVisible b u <;> simp [hb, ih]

theorem buildRows_cons (tr : String → String) (r : Int) (rest : List Int)
    (b : MenuButton) (bs : List MenuButton) :
    buildRows tr (b :: bs) (r :: rest) =
      if (((b :: bs).take r.toNat).map (renderRowButton tr)).isEmpty
      then buildRows tr ((b :: bs).drop r.toNat) rest
      else ((b :: bs).take r.toNat).map (renderRowButton tr) ::
        buildRows tr ((b :: bs).drop r.toNat) rest := by
  simp [buildRows]

theorem buildRows_map_stripAuth (tr : String → String) :
    ∀ (layout : List Int) (l : List MenuButton),
      buildRows tr (l.map stripAuth) layout = buildRows tr l layout := by
  intro layout
  induction layout with
  | nil =>
    intro l
    simp [buildRows, List.map_map, Function.comp, buildButtonText_stripAuth]
  | cons r rest ih =>
    intro l
    cases l with
    | nil => rfl
    | cons b bs =>
      rw [List.map_cons, buildRows_cons, buildRows_cons, ← List.map_cons,
        ← List.map_take, ← List.map_drop, List.map_map, ih]
      have hrow : ((b :: bs).take r.toNat).map (renderRowButton tr ∘ stripAuth) =
          ((b :: bs).take r.toNat).map (renderRowButton tr) :=
        List.map_congr_left (fun a _ => rfl)
      rw [hrow]

theorem self_mem_candidateLanguages (lang : String) :
    lang ∈ candidateLanguages lang := by
  by_cases h : lang = "en"
  · subst h
    simp [candidateLanguages]
  · simp [candidateLanguages, h]

theorem expectedButtonText_no_emoji (T : String → String → Option String)
    (l : String) (btn : MenuButton) (he : btn.emoji = "") :
    expectedButtonText T l btn = localizerGet T l btn.textKey := by
  simp [expectedButtonText, he]

theorem buildButtonText_no_emoji (tr : String → String) (btn : MenuButton)
    (he : btn.emoji = "") :
    buildButtonText tr btn = tr btn.textKey := by
  simp [buildButtonText, he]

theorem resolveInButtons_isSome (T : String → String → Option String)
    (langs : List String) (txt : String) :
    ∀ btns : List MenuButton,
      (∃ b ∈ btns, ∃ l ∈ langs, expectedButtonText T l b = txt) →
        (resolveInButtons T langs txt btns).isSome = true := by
  intro btns
  induction btns with
  | nil =>
    rintro ⟨b, hb, -⟩
    simp at hb
  | cons b bs ih =>
    rintro ⟨b', hb', l, hl, he⟩
    rw [resolveInButtons]
    cases hf : langs.find? (fun l => expectedButtonText T l b = txt) with
    | some _ => simp
    | none =>
      rcases List.mem_cons.mp hb' with rfl | hmem
      · exfalso
        have hnol := List.find?_eq_none.mp hf l hl
        simp [he] at hnol
      · exact ih ⟨b', hmem, l, hl, he⟩

theorem resolveInButtons_some (T : String → String → Option String)
    (langs : List String) (txt : String) :
    ∀ (btns : List MenuButton) (r : String × MenuType),
      resolveInButtons T langs txt btns = some r →
        ∃ b ∈ btns, (∃ l ∈ langs, expectedButtonText T l b = txt) ∧
          r = (b.handler, b.subMenu) := by
  intro btns
  induction btns with
  | nil =>
    intro r h
    simp [resolveInButtons] at h
  | cons b bs ih =>
    intro r h
    rw [resolveInButtons] at h
    cases hf : langs.find? (fun l => expectedButtonText T l b = txt) with
    | some l =>
      rw [hf] at h
      have hp := List.find?_some hf
      have hl := List.mem_of_find?_eq_some hf
      simp at hp
      refine ⟨b, List.mem_cons_self b bs, ⟨l, hl, hp⟩, ?_⟩
      simpa using h.symm
    | none =>
      rw [hf] at h
      obtain ⟨b', hmem, hx, hr⟩ := ih r h
      exact ⟨b', List.mem_cons_of_mem b hmem, hx, hr⟩

theorem resolveInMenus_isSome (reg : MenuRegistry)
    (T : String → String → Option String) (langs : List String) (txt : String) :
    ∀ L : List MenuType,
      (∃ m ∈ L, ∃ b ∈ menuButtons reg m, ∃ l ∈ langs,
        expectedButtonText T l b = txt) →
      (resolveInMenus reg T langs txt L).isSome = true := by
  intro L
  induction L with
  | nil =>
    rintro ⟨m, hm, -⟩
    simp at hm
  | cons m' Ls ih =>
    rintro ⟨m'', hm'', b, hb, l, hl, he⟩
    cases hreg : registryGet reg m' with
    | none =>
      rcases List.mem_cons.mp hm'' with rfl | hmem
      · exfalso
        rw [menuButtons, hreg] at hb
        simp at hb
      · have := ih ⟨m'', hmem, b, hb, l, hl, he⟩
        simpa [resolveInMenus, hreg] using this
    | some d =>
      cases hres : resolveInButtons T langs txt d.buttons with
      | some r => simp [resolveInMenus, hreg, hres]
      | none =>
        rcases List.mem_cons.mp hm'' with rfl | hmem
        · exfalso
          rw [menuButtons, hreg] at hb
          have := resolveInButtons_isSome T langs txt d.buttons ⟨b, hb, l, hl, he⟩
          rw [hres] at this
          simp at this
        · have := ih ⟨m'', hmem, b, hb, l, hl, he⟩
          simpa [resolveInMenus, hreg, hres] using this

theorem resolveInMenus_some (reg : MenuRegistry)
    (T : String → String → Option String) (langs : List String) (txt : String) :
    ∀ (L : List MenuType) (r : String × MenuType),
      resolveInMenus reg T langs txt L = some r →
        ∃ m ∈ L, ∃ b ∈ menuButtons reg m,
          (∃ l ∈ langs, expectedButtonText T l b = txt) ∧
          r = (b.handler, b.subMenu) := by
  intro L
  induction L with
  | nil =>
    intro r h
    simp [resolveInMenus] at h
  | cons m' Ls ih =>
    intro r h
    cases hreg : registryGet reg m' with
    | none =>
      simp only [resolveInMenus, hreg] at h
      obtain ⟨m'', hmem, rest⟩ := ih r h
      exact ⟨m'', List.mem_cons_of_mem m' hmem, rest⟩
    | some d =>
      cases hres : resolveInButtons T langs txt d.buttons with
      | some r' =>
        simp only [resolveInMenus, hreg, hres, Option.some.injEq] at h
        obtain ⟨b, hb, hx, hr⟩ := resolveInButtons_some T langs txt d.buttons r' hres
        refine ⟨m', List.mem_cons_self m' Ls, b, ?_, hx, ?_⟩
        · rw [menuButtons, hreg]
          exact hb
        · exact h ▸ hr
      | none =>
        simp only [resolveInMenus, hreg, hres] at h
        obtain ⟨m'', hmem, rest⟩ := ih r h
        exact ⟨m'', List.mem_cons_of_mem m' hmem, rest⟩

/-! ## Claim theorems -/

/-- C1 counterexample: a button declaring icon `"*"` whose English text
`"* Tasks"` already starts with the icon is rendered by the Builder's
`buildButtonText` as `"* * Tasks"` — the icon occurs twice, not once, because
`buildButtonText` prepends unconditionally. -/
theorem c1_icon_doubled :
    ({ textKey := "menu.tasks", emoji := "*" } : MenuButton).emoji ≠ "" ∧
    strStartsWith
        (localizerGet iconTable "en"
          ({ textKey := "menu.tasks", emoji := "*" } : MenuButton).textKey)
        ({ textKey := "menu.tasks", emoji := "*" } : MenuButton).emoji = true ∧
    countOcc "*".data
        (buildButtonText (localizerGet iconTable "en")
          { textKey := "menu.tasks", emoji := "*" }).data = 2 :=
  ⟨by decide, by decide, by decide⟩

/-- C1 (amended): the Builder's `buildButtonText` prepends a declared icon
unconditionally — `icon ++ " " ++ text` even when `text` already starts with
the icon; the conditional prefix check exists only in the resolver's
`expectedButtonText`, which skips the prefix exactly when the localized text
already starts with the icon. -/
theorem c1_icon_prepended_unconditionally (tr : String → String)
    (T : String → String → Option String) (lang : String) (btn : MenuButton)
    (h : btn.emoji ≠ "") :
    buildButtonText tr btn = btn.emoji ++ " " ++ tr btn.textKey ∧
    expectedButtonText T lang btn =
      (if strStartsWith (localizerGet T lang btn.textKey) btn.emoji
       then localizerGet T lang btn.textKey
       else btn.emoji ++ " " ++ localizerGet T lang btn.textKey) := by
  constructor
  · simp [buildButtonText, h]
  · by_cases hs : strStartsWith (localizerGet T lang btn.textKey) btn.emoji <;>
      simp [expectedButtonText, h, hs]

/-- Witness for C1 (amended) at the icon-embedding table and button. -/
theorem c1_icon_prepended_unconditionally_witness :
    ({ textKey := "menu.tasks", emoji := "*" } : MenuButton).emoji ≠ "" ∧
    (buildButtonText (localizerGet iconTable "en")
        { textKey := "menu.tasks", emoji := "*" } =
      ({ textKey := "menu.tasks", emoji := "*" } : MenuButton).emoji ++ " " ++
        localizerGet iconTable "en"
          ({ textKey := "menu.tasks", emoji := "*" } : MenuButton).textKey ∧
    expectedButtonText iconTable "en" { textKey := "menu.tasks", emoji := "*" } =
      (if strStartsWith
            (localizerGet iconTable "en"
              ({ textKey := "menu.tasks", emoji := "*" } : MenuButton).textKey)
            ({ textKey := "menu.tasks", emoji := "*" } : MenuButton).emoji
       then localizerGet iconTable "en"
              ({ textKey := "menu.tasks", emoji := "*" } : MenuButton).textKey
       else ({ textKey := "menu.tasks", emoji := "*" } : MenuButton).emoji ++ " " ++
              localizerGet iconTable "en"
                ({ textKey := "menu.tasks", emoji := "*" } : MenuButton).textKey)) :=
  ⟨by decide,
   c1_icon_prepended_unconditionally (localizerGet iconTable "en") iconTable "en"
     { textKey := "menu.tasks", emoji := "*" } (by decide)⟩

/-- C3 counterexample: registering a second definition under the
already-registered identifier `"main"` silently replaces the first definition
(the lookup afterwards returns the second one), instead of rejecting the
duplicate registration. -/
theorem c3_duplicate_registration_overwrites :
    ((registryInsert (registerMainMenu emptyRegistry) MenuMain
        { type := MenuTasks, titleKey := "tasks.title", buttons := [],
          layout := [], hasBack := true }) MenuMain).map MenuDefinition.titleKey
      = some "tasks.title" ∧
    ((registerMainMenu emptyRegistry) MenuMain).map MenuDefinition.titleKey
      = some "" :=
  ⟨rfl, rfl⟩

/-- C3 (amended): registration is plain map assignment with no duplicate
detection — re-registering an identifier silently overwrites the earlier
definition; however, the seven registration calls executed by
`NewMenuRegistry` use seven pairwise-distinct screen identifiers, so no
definition is overwritten during the actual startup batch: each screen's final
binding is exactly what its own registration call installed. -/
theorem c3_registration_batch_distinct :
    newMenuRegistryKeys.Nodup ∧
    (∀ (r : MenuRegistry) (k : MenuType) (v₁ v₂ : MenuDefinition),
      registryInsert (registryInsert r k v₁) k v₂ k = some v₂) ∧
    (∀ isAdm : Int → Bool,
      registryGet (NewMenuRegistry isAdm) MenuMain =
          registerMainMenu emptyRegistry MenuMain ∧
      registryGet (NewMenuRegistry isAdm) MenuTasks =
          registerTasksMenu emptyRegistry MenuTasks ∧
      registryGet (NewMenuRegistry isAdm) MenuProfile =
          registerProfileMenu emptyRegistry MenuProfile ∧
      registryGet (NewMenuRegistry isAdm) MenuStats =
          registerStatsMenu emptyRegistry MenuStats ∧
      registryGet (NewMenuRegistry isAdm) MenuMore =
          registerMoreMenu isAdm emptyRegistry MenuMore ∧
      registryGet (NewMenuRegistry isAdm) MenuAdmin =
          registerAdminMenu emptyRegistry MenuAdmin ∧
      registryGet (NewMenuRegistry isAdm) MenuNearTasks =
          registerNearTasksMenu emptyRegistry MenuNearTasks) := by
  refine ⟨by decide, ?_, ?_⟩
  · intro r k v₁ v₂
    simp [registryInsert]
  · intro isAdm
    exact ⟨rfl, rfl, rfl, rfl, rfl, rfl, rfl⟩

/-- C4: rendering any screen identifier that is not registered never fails:
`Build` returns the fallback keyboard of exactly one row holding the single
synthesized back element. -/
theorem c4_unknown_screen_fallback (isAdm : Int → Bool) (tr : String → String)
    (userID : Int) (menuType : MenuType) (h : menuType ∉ newMenuRegistryKeys) :
    Build (NewMenuRegistry isAdm) tr userID menuType = [[backButton tr]] := by
  have hg := registryGet_notin_keys isAdm menuType h
  simp [Build, hg, buildFallbackMenu]

/-- Witness for C4 at the unregistered identifier `"nonexistent-id"`. -/
theorem c4_unknown_screen_fallback_witness :
    ("nonexistent-id" : MenuType) ∉ newMenuRegistryKeys ∧
    Build (NewMenuRegistry (fun _ => false)) (fun key => key) 0 "nonexistent-id" =
      [[backButton (fun key => key)]] :=
  ⟨by decide,
   c4_unknown_screen_fallback (fun _ => false) (fun key => key) 0
     "nonexistent-id" (by decide)⟩

/-- C7: starting from an empty history for a user, any sequence of N pushes
followed by N pops leaves `Current` at the root default `"main"` and `Depth`
at 0. -/
theorem c7_stack_symmetry (s : NavStacks) (u : Int) (ms : List MenuType)
    (h : s u = []) :
    Current (popSeq (pushSeq s u ms) u ms.length) u = MenuMain ∧
    Depth (popSeq (pushSeq s u ms) u ms.length) u = 0 := by
  have hp : (pushSeq s u ms) u = ms := by
    rw [pushSeq_apply, h]
    simp
  have he : popSeq (pushSeq s u ms) u ms.length u = [] :=
    popSeq_apply u ms.length (pushSeq s u ms) (by rw [hp])
  constructor
  · simp [Current, he]
  · simp [Depth, he]

/-- Witness for C7: three pushes then three pops for user 7. -/
theorem c7_stack_symmetry_witness :
    NewNavigationStack 7 = [] ∧
    (Current (popSeq (pushSeq NewNavigationStack 7 [MenuTasks, MenuStats, MenuAdmin]) 7
        [MenuTasks, MenuStats, MenuAdmin].length) 7 = MenuMain ∧
     Depth (popSeq (pushSeq NewNavigationStack 7 [MenuTasks, MenuStats, MenuAdmin]) 7
        [MenuTasks, MenuStats, MenuAdmin].length) 7 = 0) :=
  ⟨rfl, c7_stack_symmetry NewNavigationStack 7 [MenuTasks, MenuStats, MenuAdmin] rfl⟩

/-- C8: for a user whose history is empty or absent, `Pop` returns the root
default `"main"` and leaves the map untouched, and `Current` also returns the
root default; neither is an error condition. -/
theorem c8_empty_pop_current (s : NavStacks) (u : Int) (h : s u = []) :
    (Pop s u).1 = MenuMain ∧ (Pop s u).2 = s ∧ Current s u = MenuMain := by
  refine ⟨?_, ?_, ?_⟩ <;> simp [Pop, Current, h]

/-- Witness for C8 on the freshly created navigation stack. -/
theorem c8_empty_pop_current_witness :
    NewNavigationStack 0 = [] ∧
    ((Pop NewNavigationStack 0).1 = MenuMain ∧
     (Pop NewNavigationStack 0).2 = NewNavigationStack ∧
     Current NewNavigationStack 0 = MenuMain) :=
  ⟨rfl, c8_empty_pop_current NewNavigationStack 0 rfl⟩

/-- C5: from an empty history, `ShowMenu "main"` with tracking leaves the
history `["main"]`, a further `ShowMenu "tasks"` leaves `["main","tasks"]`
with depth 2, and `NavigateBack` then leaves `["main"]` and sends exactly the
keyboard a direct `Build` of `"main"` produces; the push happens only when
`trackNavigation` is true, and the rendered keyboard equals the `Build` result
computed before any push. -/
theorem c5_navigation_scenario (reg : MenuRegistry) (tr : String → String)
    (s : NavStacks) (u : Int) (h : s u = []) :
    (ShowMenu reg tr s MenuMain u "" true).stacksAfter u = [MenuMain] ∧
    (ShowMenu reg tr (ShowMenu reg tr s MenuMain u "" true).stacksAfter
        MenuTasks u "" true).stacksAfter u = [MenuMain, MenuTasks] ∧
    Depth (ShowMenu reg tr (ShowMenu reg tr s MenuMain u "" true).stacksAfter
        MenuTasks u "" true).stacksAfter u = 2 ∧
    (NavigateBack reg tr
        (ShowMenu reg tr (ShowMenu reg tr s MenuMain u "" true).stacksAfter
          MenuTasks u "" true).stacksAfter u).stacksAfter u = [MenuMain] ∧
    (NavigateBack reg tr
        (ShowMenu reg tr (ShowMenu reg tr s MenuMain u "" true).stacksAfter
          MenuTasks u "" true).stacksAfter u).keyboard = Build reg tr u MenuMain ∧
    (ShowMenu reg tr s MenuMain u "" true).keyboard = Build reg tr u MenuMain ∧
    (ShowMenu reg tr s MenuMain u "" false).stacksAfter = s := by
  have h1 : (ShowMenu reg tr s MenuMain u "" true).stacksAfter u = [MenuMain] := by
    simp [ShowMenu, Push, h]
  have h2 : (ShowMenu reg tr (ShowMenu reg tr s MenuMain u "" true).stacksAfter
      MenuTasks u "" true).stacksAfter u = [MenuMain, MenuTasks] := by
    simp [ShowMenu, Push, h]
  refine ⟨h1, h2, ?_, ?_, ?_, ?_, ?_⟩
  · simp [Depth, h2]
  · simp [NavigateBack, ShowMenu, Pop, Current, Push, h, MenuMain, MenuTasks]
  · simp [NavigateBack, ShowMenu, Pop, Current, Push, h, MenuMain, MenuTasks]
  · simp [ShowMenu]
  · simp [ShowMenu]

/-- Witness for C5: the scenario run on the real registry for user 1. -/
theorem c5_navigation_scenario_witness :
    NewNavigationStack 1 = [] ∧
    ((ShowMenu (NewMenuRegistry (fun _ => false)) (fun key => key)
        NewNavigationStack MenuMain 1 "" true).stacksAfter 1 = [MenuMain] ∧
     (ShowMenu (NewMenuRegistry (fun _ => false)) (fun key => key)
        (ShowMenu (NewMenuRegistry (fun _ => false)) (fun key => key)
          NewNavigationStack MenuMain 1 "" true).stacksAfter
        MenuTasks 1 "" true).stacksAfter 1 = [MenuMain, MenuTasks] ∧
     Depth (ShowMenu (NewMenuRegistry (fun _ => false)) (fun key => key)
        (ShowMenu (NewMenuRegistry (fun _ => false)) (fun key => key)
          NewNavigationStack MenuMain 1 "" true).stacksAfter
        MenuTasks 1 "" true).stacksAfter 1 = 2 ∧
     (NavigateBack (NewMenuRegistry (fun _ => false)) (fun key => key)
        (ShowMenu (NewMenuRegistry (fun _ => false)) (fun key => key)
          (ShowMenu (NewMenuRegistry (fun _ => false)) (fun key => key)
            NewNavigationStack MenuMain 1 "" true).stacksAfter
          MenuTasks 1 "" true).stacksAfter 1).stacksAfter 1 = [MenuMain] ∧
     (NavigateBack (NewMenuRegistry (fun _ => false)) (fun key => key)
        (ShowMenu (NewMenuRegistry (fun _ => false)) (fun key => key)
          (ShowMenu (NewMenuRegistry (fun _ => false)) (fun key => key)
            NewNavigationStack MenuMain 1 "" true).stacksAfter
          MenuTasks 1 "" true).stacksAfter 1).keyboard =
        Build (NewMenuRegistry (fun _ => false)) (fun key => key) 1 MenuMain ∧
     (ShowMenu (NewMenuRegistry (fun _ => false)) (fun key => key)
        NewNavigationStack MenuMain 1 "" true).keyboard =
        Build (NewMenuRegistry (fun _ => false)) (fun key => key) 1 MenuMain ∧
     (ShowMenu (NewMenuRegistry (fun _ => false)) (fun key => key)
        NewNavigationStack MenuMain 1 "" false).stacksAfter = NewNavigationStack) :=
  ⟨rfl,
   c5_navigation_scenario (NewMenuRegistry (fun _ => false)) (fun key => key)
     NewNavigationStack 1 rfl⟩

/-- C6: a button carrying a permission predicate survives the filter (and so
reaches the keyboard `Build` assembles from the filtered buttons) exactly when
the predicate returns true for the requesting user; a failing privilege lookup
inside `IsAdminCheck` yields false (fail-closed), and a successful lookup is
passed through. -/
theorem c6_permission_filtering (reg : MenuRegistry) (tr : String → String)
    (u u₁ u₂ : Int) (m : MenuType) (d : MenuDefinition) (check : Int → Bool)
    (btn : MenuButton) (repo : Int → Except String Bool) (err : String)
    (isAdm : Bool) (hreg : registryGet reg m = some d)
    (hrole : btn.requiresRole = some check) (herr : repo u₁ = .error err)
    (hok : repo u₂ = .ok isAdm) :
    (btn ∈ filterVisibleButtons d.buttons u ↔
      btn ∈ d.buttons ∧ check u = true) ∧
    Build reg tr u m =
      (if d.hasBack
       then buildRows tr (filterVisibleButtons d.buttons u) d.layout ++
         [[backButton tr]]
       else buildRows tr (filterVisibleButtons d.buttons u) d.layout) ∧
    IsAdminCheck repo u₁ = false ∧
    IsAdminCheck repo u₂ = isAdm := by
  refine ⟨?_, ?_, ?_, ?_⟩
  · simp [filterVisibleButtons, List.mem_filter, buttonVisible, hrole]
  · simp [Build, hreg]
  · simp [IsAdminCheck, herr]
  · simp [IsAdminCheck, hok]

/-- Witness for C6: the admin-panel button of the `more` screen, gated by
`IsAdminCheck adminRepo`, for admin user 1; the failing lookup is user 2. -/
theorem c6_permission_filtering_witness :
    registryGet (NewMenuRegistry (IsAdminCheck adminRepo)) MenuMore =
      some { type := MenuMore, titleKey := "more.title", layout := [1, 1, 1],
             hasBack := true,
             buttons :=
               [ { textKey := "menu.language", handler := "language" }
               , { textKey := "menu.report_issue", handler := "report_issue" }
               , { textKey := "menu.admin_panel", subMenu := MenuAdmin,
                   requiresRole := some (IsAdminCheck adminRepo) } ] } ∧
    (({ textKey := "menu.admin_panel", subMenu := MenuAdmin,
        requiresRole := some (IsAdminCheck adminRepo) } : MenuButton) ∈
        filterVisibleButtons
          [ { textKey := "menu.language", handler := "language" }
          , { textKey := "menu.report_issue", handler := "report_issue" }
          , { textKey := "menu.admin_panel", subMenu := MenuAdmin,
              requiresRole := some (IsAdminCheck adminRepo) } ] 1 ↔
      ({ textKey := "menu.admin_panel", subMenu := MenuAdmin,
         requiresRole := some (IsAdminCheck adminRepo) } : MenuButton) ∈
          [ { textKey := "menu.language", handler := "language" }
          , { textKey := "menu.report_issue", handler := "report_issue" }
          , { textKey := "menu.admin_panel", subMenu := MenuAdmin,
              requiresRole := some (IsAdminCheck adminRepo) } ] ∧
        IsAdminCheck adminRepo 1 = true) ∧
    Build (NewMenuRegistry (IsAdminCheck adminRepo)) (fun key => key) 1 MenuMore =
      (if ({ type := MenuMore, titleKey := "more.title", layout := [1, 1, 1],
             hasBack := true,
             buttons :=
               [ { textKey := "menu.language", handler := "language" }
               , { textKey := "menu.report_issue", handler := "report_issue" }
               , { textKey := "menu.admin_panel", subMenu := MenuAdmin,
                   requiresRole := some (IsAdminCheck adminRepo) } ] } :
            MenuDefinition).hasBack
       then buildRows (fun key => key)
           (filterVisibleButtons
             [ { textKey := "menu.language", handler := "language" }
             , { textKey := "menu.report_issue", handler := "report_issue" }
             , { textKey := "menu.admin_panel", subMenu := MenuAdmin,
                 requiresRole := some (IsAdminCheck adminRepo) } ] 1)
           [1, 1, 1] ++ [[backButton (fun key => key)]]
       else buildRows (fun key => key)
           (filterVisibleButtons
             [ { textKey := "menu.language", handler := "language" }
             , { textKey := "menu.report_issue", handler := "report_issue" }
             , { textKey := "menu.admin_panel", subMenu := MenuAdmin,
                 requiresRole := some (IsAdminCheck adminRepo) } ] 1)
           [1, 1, 1]) ∧
    IsAdminCheck adminRepo 2 = false ∧
    IsAdminCheck adminRepo 1 = true := by
  refine ⟨rfl, ?_⟩
  have := c6_permission_filtering (NewMenuRegistry (IsAdminCheck adminRepo))
    (fun key => key) 1 2 1 MenuMore
    { type := MenuMore, titleKey := "more.title", layout := [1, 1, 1],
      hasBack := true,
      buttons :=
        [ { textKey := "menu.language", handler := "language" }
        , { textKey := "menu.report_issue", handler := "report_issue" }
        , { textKey := "menu.admin_panel", subMenu := MenuAdmin,
            requiresRole := some (IsAdminCheck adminRepo) } ] }
    (IsAdminCheck adminRepo)
    { textKey := "menu.admin_panel", subMenu := MenuAdmin,
      requiresRole := some (IsAdminCheck adminRepo) }
    adminRepo "db unavailable" true rfl rfl rfl rfl
  exact this

/-- C9: `buildRows` drops no surviving button — the flattened rendered rows
carry exactly the buttons' labels in declaration order — and every button
beyond the slots the layout covers is emitted after the layout-shaped prefix,
one per row, in order. -/
theorem c9_layout_overflow (tr : String → String) (btns : List MenuButton)
    (layout : List Int) :
    (buildRows tr btns layout).flatten.map RenderedButton.text =
      btns.map (buildButtonText tr) ∧
    buildRows tr btns layout =
      buildRows tr (btns.take (sumLayout layout)) layout ++
        (btns.drop (sumLayout layout)).map
          (fun btn => [{ text := buildButtonText tr btn, isLocation := false }]) :=
  ⟨buildRows_flatten_text tr layout btns, buildRows_overflow_split tr layout btns⟩

/-- C10: `Build` never reads `RequiresAuth` — two screens identical except for
that flag on their buttons render the same keyboard. -/
theorem c10_requiresAuth_never_hides (reg₁ reg₂ : MenuRegistry)
    (tr : String → String) (u : Int) (m : MenuType) (d₁ d₂ : MenuDefinition)
    (h₁ : registryGet reg₁ m = some d₁) (h₂ : registryGet reg₂ m = some d₂)
    (hbtns : d₁.buttons.map stripAuth = d₂.buttons.map stripAuth)
    (hlayout : d₁.layout = d₂.layout) (hback : d₁.hasBack = d₂.hasBack) :
    Build reg₁ tr u m = Build reg₂ tr u m := by
  have e1 : buildRows tr (filterVisibleButtons d₁.buttons u) d₁.layout =
      buildRows tr (filterVisibleButtons d₂.buttons u) d₂.layout := by
    rw [hlayout,
      ← buildRows_map_stripAuth tr d₂.layout (filterVisibleButtons d₁.buttons u),
      ← buildRows_map_stripAuth tr d₂.layout (filterVisibleButtons d₂.buttons u),
      ← filterVisible_map_stripAuth u d₁.buttons,
      ← filterVisible_map_stripAuth u d₂.buttons, hbtns]
  simp [Build, h₁, h₂, e1, hback]

/-- Witness for C10: the same one-button screen with `RequiresAuth` set and
cleared renders identically. -/
theorem c10_requiresAuth_never_hides_witness :
    Build (registryInsert emptyRegistry "screen"
        { type := "screen", layout := [1], hasBack := false,
          buttons := [{ textKey := "menu.example", requiresAuth := true }] })
      (fun key => key) 0 "screen" =
    Build (registryInsert emptyRegistry "screen"
        { type := "screen", layout := [1], hasBack := false,
          buttons := [{ textKey := "menu.example", requiresAuth := false }] })
      (fun key => key) 0 "screen" :=
  c10_requiresAuth_never_hides
    (registryInsert emptyRegistry "screen"
      { type := "screen", layout := [1], hasBack := false,
        buttons := [{ textKey := "menu.example", requiresAuth := true }] })
    (registryInsert emptyRegistry "screen"
      { type := "screen", layout := [1], hasBack := false,
        buttons := [{ textKey := "menu.example", requiresAuth := false }] })
    (fun key => key) 0 "screen"
    { type := "screen", layout := [1], hasBack := false,
      buttons := [{ textKey := "menu.example", requiresAuth := true }] }
    { type := "screen", layout := [1], hasBack := false,
      buttons := [{ textKey := "menu.example", requiresAuth := false }] }
    rfl rfl rfl rfl rfl

/-- C2 counterexample: the resolver's hardcoded search list omits the declared
`near_tasks` screen, so the label the Builder renders for its
`menu.send_location` button resolves to `("", "")` ("no match") instead of the
button's handler `near_tasks_location` — the search does not cover every
declared screen and the round-trip fails there. -/
theorem c2_near_tasks_unresolvable :
    ({ textKey := "menu.send_location", handler := "near_tasks_location" } :
        MenuButton) ∈
      menuButtons (NewMenuRegistry (fun _ => false)) MenuNearTasks ∧
    ResolveHandlerFromButtonText (NewMenuRegistry (fun _ => false))
        (fun _ _ => none) "en"
        (buildButtonText (localizerGet (fun _ _ => none) "en")
          { textKey := "menu.send_location", handler := "near_tasks_location" })
      = ("", "") ∧
    (({ textKey := "menu.send_location", handler := "near_tasks_location" } :
        MenuButton).handler,
     ({ textKey := "menu.send_location", handler := "near_tasks_location" } :
        MenuButton).subMenu) ≠ ("", "") :=
  ⟨List.Mem.head _, by decide, by decide⟩

/-- C2 (amended): the resolver searches only its hardcoded list of six menus
(`main`, `tasks`, `profile`, `stats`, `more`, `admin`), which omits the
declared `near_tasks` screen; for every button without a declared icon on a
searched screen, resolving the label the Builder renders in the user's
language returns that button's handler and target submenu, provided no other
searched (screen, button, language) candidate carries the same label with a
different answer. -/
theorem c2_resolver_round_trip (reg : MenuRegistry)
    (T : String → String → Option String) (lang : String) (m : MenuType)
    (btn : MenuButton) (hm : m ∈ searchMenus) (hb : btn ∈ menuButtons reg m)
    (he : btn.emoji = "")
    (hnc : ∀ m' ∈ searchMenus, ∀ b' ∈ menuButtons reg m',
      ∀ l ∈ candidateLanguages lang,
        expectedButtonText T l b' = buildButtonText (localizerGet T lang) btn →
          (b'.handler, b'.subMenu) = (btn.handler, btn.subMenu)) :
    ResolveHandlerFromButtonText reg T lang
        (buildButtonText (localizerGet T lang) btn) =
      (btn.handler, btn.subMenu) := by
  have hmatch : expectedButtonText T lang btn =
      buildButtonText (localizerGet T lang) btn := by
    rw [expectedButtonText_no_emoji T lang btn he,
      buildButtonText_no_emoji (localizerGet T lang) btn he]
  have hsome := resolveInMenus_isSome reg T (candidateLanguages lang)
    (buildButtonText (localizerGet T lang) btn) searchMenus
    ⟨m, hm, btn, hb, lang, self_mem_candidateLanguages lang, hmatch⟩
  obtain ⟨r, hr⟩ := Option.isSome_iff_exists.mp hsome
  obtain ⟨m', hm', b', hb', ⟨l', hl', he'⟩, hrr⟩ :=
    resolveInMenus_some reg T (candidateLanguages lang)
      (buildButtonText (localizerGet T lang) btn) searchMenus r hr
  have hsame := hnc m' hm' b' hb' l' hl' he'
  simp only [ResolveHandlerFromButtonText, hr]
  rw [hrr, hsame]

/-- Witness for C2 (amended): the `menu.tasks` button of the main screen under
the empty translation table resolves back to its target `tasks`. -/
theorem c2_resolver_round_trip_witness :
    ResolveHandlerFromButtonText (NewMenuRegistry (fun _ => false))
        (fun _ _ => none) "en"
        (buildButtonText (localizerGet (fun _ _ => none) "en")
          { textKey := "menu.tasks", subMenu := MenuTasks, requiresAuth := true })
      = ("", MenuTasks) :=
  c2_resolver_round_trip (NewMenuRegistry (fun _ => false)) (fun _ _ => none)
    "en" MenuMain
    { textKey := "menu.tasks", subMenu := MenuTasks, requiresAuth := true }
    (by decide) (List.Mem.head _) rfl (by decide)

end Oracle
